import Mathlib

/-!
Shallow embedding of the WebSocket connection coordinator of the
`videocallhci` server (`src/server.js` together with the persisted-room
document operations of `src/models/Room.js`).

Conventions of the embedding:
* A JavaScript `Map` is modelled as an association list in insertion
  order: `set` on an existing key replaces the value in place, `set` on a
  fresh key appends, `delete` removes the entry, `size` is the length.
* A live connection (`ws` object) is named by a `Nat` identifier; its
  mutable fields live in the `conns` table of the server state.
* `ws.send(...)` is modelled as an emitted event `(connId, OutMsg)`; the
  handlers return the list of emitted events in order.
* Timestamps (`new Date()`, `Date.now()`) are naturals counting
  milliseconds; the current time is passed to each handler explicitly.
* JavaScript `x || y` on strings (falsy on `""`/absent) is `sOr`/`jsOr`.
-/

namespace VideoCall

/-! ## Claim theorems -/

/-! ## Definitions -/

/-- `Map.get` on an association list: first entry with the given key. -/
def msGet {α β : Type} [DecidableEq α] : List (α × β) → α → Option β
  | [], _ => none
  | p :: ps, k => if p.1 = k then some p.2 else msGet ps k

/-- `Map.set` on an association list: replace in place, else append. -/
def msSet {α β : Type} [DecidableEq α] : List (α × β) → α → β → List (α × β)
  | [], k, v => [(k, v)]
  | p :: ps, k, v => if p.1 = k then (k, v) :: ps else p :: msSet ps k v

/-- `Map.delete` on an association list: drop the entry with the key. -/
def msDelete {α β : Type} [DecidableEq α] : List (α × β) → α → List (α × β)
  | [], _ => []
  | p :: ps, k => if p.1 = k then ps else p :: msDelete ps k

/-- Little-endian decimal digits of `n`, with explicit fuel (the fuel `n`
itself always suffices); models the digit stream of JavaScript's decimal
rendering of a number inside a template literal. -/
def digitsRevAux : Nat → Nat → List Nat
  | 0, _ => []
  | fuel + 1, n => if n = 0 then [] else n % 10 :: digitsRevAux fuel (n / 10)

/-- Big-endian decimal digits of `n` (with `[0]` for zero). -/
def decimalDigits (n : Nat) : List Nat :=
  if n = 0 then [0] else (digitsRevAux n n).reverse

/-- Decimal rendering of a natural as a string, modelling the decimal
rendering of an integer-valued number by a JS template literal. -/
def decimalString (n : Nat) : String :=
  String.mk ((decimalDigits n).map Nat.digitChar)

/-- Session identifier built by `handleJoinRoom`, modelling the template
literal used at room creation and at restart from `ended`. -/
def mkSessionId (roomId : String) (nowMs : Nat) : String :=
  roomId ++ "-" ++ decimalString nowMs

/-- Value of a little-endian digit list. -/
def valRev : List Nat → Nat
  | [] => 0
  | d :: ds => d + 10 * valRev ds

/-- JavaScript `a || b` for strings (`a` is falsy exactly when empty). -/
def sOr (a b : String) : String := if a = "" then b else a

/-- JavaScript `a || b` where `a` may also be absent (`undefined`). -/
def jsOr (a : Option String) (b : String) : String :=
  match a with
  | none => b
  | some s => sOr s b

/-- Lifecycle status of a persisted room (the `status` enum of Room.js). -/
inductive RoomStatus
  | waiting
  | active
  | ended
  deriving DecidableEq

/-- In-memory attributes attached to a live connection (the fields the
server stores on the `ws` object, plus `isOpen` for `readyState === OPEN`). -/
structure Conn where
  roomId : String
  participantId : String
  participantName : String
  role : String
  deviceId : String
  leftHandled : Bool
  isOpen : Bool
  deriving DecidableEq

instance : Inhabited Conn :=
  ⟨{ roomId := "", participantId := "", participantName := "Anonymous",
     role := "user", deviceId := "", leftHandled := false, isOpen := false }⟩

/-- Entry of the persisted `participants` array (participantSchema). -/
structure DbParticipant where
  participantId : String
  participantName : String
  role : String
  joinedAt : Nat
  leftAt : Option Nat
  deriving DecidableEq

/-- Entry of the persisted `chatMessages` array (chatMessageSchema). -/
structure ChatMsg where
  senderId : String
  senderName : String
  message : String
  timestamp : Nat
  sessionId : Option String
  deriving DecidableEq

/-- The `metadata` sub-document as used by server.js (`totalParticipants`,
`maxParticipants`, and the `reconnections` counter the server writes). -/
structure RoomMetadata where
  totalParticipants : Nat
  maxParticipants : Nat
  reconnections : Nat
  deriving DecidableEq

/-- The `creator` sub-document of the persisted room. -/
structure RoomCreator where
  participantId : String
  participantName : String
  role : String
  deriving DecidableEq

/-- Persisted room document (roomSchema); `callRecordings` and the
`createdAt` timestamp are never touched by the modelled handlers and are
omitted. -/
structure DbRoom where
  roomId : String
  sessionId : Option String
  creator : RoomCreator
  participants : List DbParticipant
  chatMessages : List ChatMsg
  status : RoomStatus
  callStartTime : Option Nat
  callEndTime : Option Nat
  callDuration : Int
  sessionStartTime : Option Nat
  metadata : RoomMetadata
  updatedAt : Nat
  deriving DecidableEq

/-- `roomSchema.methods.addParticipant`: push the participant unless the
id is already present, then refresh `metadata.totalParticipants`. -/
def DbRoom.addParticipant (r : DbRoom) (participantId participantName role : String)
    (now : Nat) : DbRoom :=
  if r.participants.any (fun p => p.participantId == participantId) then r
  else
    let ps := r.participants ++
      [{ participantId := participantId, participantName := participantName,
         role := role, joinedAt := now, leftAt := none }]
    { r with participants := ps,
             metadata := { r.metadata with totalParticipants := ps.length } }

/-- Helper for `removeParticipant`: set `leftAt` on the first entry with
the given id, only if it is not already set. -/
def removeParticipantList : List DbParticipant → String → Nat → List DbParticipant
  | [], _, _ => []
  | p :: ps, pid, now =>
    if p.participantId = pid then
      (if p.leftAt.isNone then { p with leftAt := some now } else p) :: ps
    else
      p :: removeParticipantList ps pid now

/-- `roomSchema.methods.removeParticipant`. -/
def DbRoom.removeParticipant (r : DbRoom) (participantId : String) (now : Nat) : DbRoom :=
  { r with participants := removeParticipantList r.participants participantId now }

/-- `roomSchema.methods.calculateDuration`: `callDuration` becomes
`Math.floor((callEndTime - callStartTime) / 1000)` when both ends are set. -/
def DbRoom.calculateDuration (r : DbRoom) : DbRoom :=
  match r.callStartTime, r.callEndTime with
  | some s, some e => { r with callDuration := Int.fdiv ((e : Int) - (s : Int)) 1000 }
  | _, _ => r

/-- `roomSchema.methods.addChatMessage`. -/
def DbRoom.addChatMessage (r : DbRoom) (senderId senderName message : String)
    (now : Nat) : DbRoom :=
  { r with chatMessages := r.chatMessages ++
      [{ senderId := senderId, senderName := senderName, message := message,
         timestamp := now, sessionId := none }] }

/-- Payload of a device message after destructuring `type` and
`targetDeviceId` away; `deviceId`/`deviceName` are the fields the relay
inspects, `rest` stands for all remaining fields, carried opaquely. -/
structure DevicePayload where
  deviceId : Option String
  deviceName : Option String
  rest : List (String × String)
  deriving DecidableEq

/-- Outbound wire messages emitted by the modelled handlers. -/
inductive OutMsg
  | roomFull (roomId : String)
  | roomWaiting (roomId role : String)
  | roomReady (roomId role otherParticipantId otherParticipantName otherParticipantRole : String)
  | chatHistory (roomId : String) (chatMessages : List ChatMsg) (totalMessages : Nat)
  | participantJoined (participantId participantName role : String)
  | participantLeft (participantId : String)
  | chatPost (roomId participantId senderId senderName message : String) (timestamp : Nat)
  | errorReply (message : String)
  | adminMediaControl (mediaType : String) (enabled : Bool) (fromAdmin : String)
  | registered (deviceId : String)
  | forwarded (msgType fromDeviceId : String) (payload : DevicePayload)
  deriving DecidableEq

/-- Whole coordinator state: the connection table, the two in-memory
registries (`rooms`, `connectedDevices`), the persisted room store, and
the persisted device-status store. -/
structure ServerState where
  conns : List (Nat × Conn)
  rooms : List (String × List (String × Nat))
  db : List (String × DbRoom)
  connectedDevices : List (String × Nat)
  deviceStatus : List (String × String)
  deriving DecidableEq

/-- Read a connection's attributes (a JS `ws` reference is always valid;
absent ids resolve to the inert default connection). -/
def ServerState.getConn (s : ServerState) (c : Nat) : Conn :=
  (msGet s.conns c).getD default

/-- `ws.readyState === WebSocket.OPEN`. -/
def ServerState.connOpen (s : ServerState) (c : Nat) : Bool :=
  match msGet s.conns c with
  | some w => w.isOpen
  | none => false

/-- Overwrite a connection's attributes. -/
def ServerState.setConn (s : ServerState) (c : Nat) (w : Conn) : ServerState :=
  { s with conns := msSet s.conns c w }

/-- `broadcastToRoom(roomId, senderId, data, includeSender)`: send to every
registered occupant except (by default) the sender's participantId, and
only to connections in the open state. -/
def broadcastToRoom (s : ServerState) (roomId senderId : String) (data : OutMsg)
    (includeSender : Bool) : List (Nat × OutMsg) :=
  match msGet s.rooms roomId with
  | none => []
  | some parts =>
    parts.filterMap (fun q =>
      if (includeSender || q.1 != senderId) && s.connOpen q.2 then some (q.2, data) else none)

/-- `handleJoinRoom(ws, roomId, participantId, participantName, role)`. -/
def handleJoinRoom (s : ServerState) (c : Nat) (now : Nat)
    (roomId participantId participantName role : String) :
    ServerState × List (Nat × OutMsg) :=
  let rooms1 := if (msGet s.rooms roomId).isSome then s.rooms else msSet s.rooms roomId []
  let parts := (msGet rooms1 roomId).getD []
  if 2 ≤ parts.length then
    ({ s with rooms := rooms1 }, [(c, OutMsg.roomFull roomId)])
  else
    let dbStep : DbRoom × List (String × DbRoom) :=
      match msGet s.db roomId with
      | none =>
        let fresh : DbRoom :=
          { roomId := roomId
            sessionId := some (mkSessionId roomId now)
            creator := { participantId := participantId,
                         participantName := sOr participantName "Anonymous", role := role }
            participants := [{ participantId := participantId,
                               participantName := sOr participantName "Anonymous",
                               role := role, joinedAt := now, leftAt := none }]
            chatMessages := []
            status := RoomStatus.waiting
            callStartTime := none
            callEndTime := none
            callDuration := 0
            sessionStartTime := some now
            metadata := { totalParticipants := 1, maxParticipants := 2, reconnections := 0 }
            updatedAt := now }
        (fresh, msSet s.db roomId fresh)
      | some dbRoom0 =>
        let dbRoom1 :=
          if dbRoom0.status = RoomStatus.ended then
            { dbRoom0 with
              participants := []
              callStartTime := none
              callEndTime := none
              callDuration := 0
              sessionStartTime := some now
              sessionId := some (mkSessionId roomId now)
              status := RoomStatus.waiting
              metadata := { dbRoom0.metadata with totalParticipants := 0, reconnections := 0 } }
          else dbRoom0
        if dbRoom1.participants.any (fun p => p.participantId == participantId) then
          (dbRoom1, s.db)
        else
          let dbRoom2 := dbRoom1.addParticipant participantId (sOr participantName "Anonymous") role now
          (dbRoom2, msSet s.db roomId dbRoom2)
    let dbRoom := dbStep.1
    let db1 := dbStep.2
    let existingParticipants := parts
    let rooms2 := msSet rooms1 roomId (msSet parts participantId c)
    match existingParticipants with
    | [] =>
      ({ s with rooms := rooms2, db := db1 },
       [(c, OutMsg.roomWaiting roomId role),
        (c, OutMsg.chatHistory roomId dbRoom.chatMessages dbRoom.chatMessages.length)])
    | (otherParticipantId, otherC) :: _ =>
      let callStep : DbRoom × List (String × DbRoom) :=
        if dbRoom.status = RoomStatus.waiting then
          let d := { dbRoom with
            callStartTime := some now
            sessionStartTime := if dbRoom.sessionStartTime.isNone then some now
                                else dbRoom.sessionStartTime
            status := RoomStatus.active }
          (d, msSet db1 roomId d)
        else (dbRoom, db1)
      let dbRoom2 := callStep.1
      let db2 := callStep.2
      let otherWs := s.getConn otherC
      ({ s with rooms := rooms2, db := db2 },
       [(c, OutMsg.roomReady roomId role otherParticipantId otherWs.participantName otherWs.role),
        (c, OutMsg.chatHistory roomId dbRoom2.chatMessages dbRoom2.chatMessages.length),
        (otherC, OutMsg.participantJoined participantId participantName role)])

/-- `handleAdminMediaControl(ws, data)`: admin-gated, targeted forward;
touches no state, only emits messages. -/
def handleAdminMediaControl (s : ServerState) (c : Nat)
    (targetParticipantId mediaType : String) (enabled : Bool) : List (Nat × OutMsg) :=
  let ws := s.getConn c
  if ws.role ≠ "admin" then
    [(c, OutMsg.errorReply "Only admins can control participant media")]
  else
    match msGet s.rooms ws.roomId with
    | none => []
    | some parts =>
      match msGet parts targetParticipantId with
      | some tc =>
        if s.connOpen tc then
          [(tc, OutMsg.adminMediaControl mediaType enabled ws.participantId)]
        else []
      | none => []

/-- `handleParticipantLeave(ws)`: one-shot leave protocol, invoked by the
`leave-room` message and by the socket close handler. -/
def handleParticipantLeave (s : ServerState) (c : Nat) (now : Nat) :
    ServerState × List (Nat × OutMsg) :=
  match msGet s.conns c with
  | none => (s, [])
  | some ws =>
    if ws.leftHandled then (s, [])
    else
      let s1 := s.setConn c { ws with leftHandled := true }
      if ws.roomId = "" ∨ ws.participantId = "" then (s1, [])
      else
        match msGet s1.rooms ws.roomId with
        | none => (s1, [])
        | some parts =>
          let parts1 := msDelete parts ws.participantId
          let rooms1 := msSet s1.rooms ws.roomId parts1
          let db1 :=
            match msGet s1.db ws.roomId with
            | none => s1.db
            | some dbRoom0 =>
              let dbRoom1 := dbRoom0.removeParticipant ws.participantId now
              let dbRoom2 :=
                if parts1.length = 0 ∧ dbRoom1.status = RoomStatus.active then
                  { ({ dbRoom1 with callEndTime := some now }).calculateDuration with
                    status := RoomStatus.ended }
                else dbRoom1
              msSet s1.db ws.roomId { dbRoom2 with updatedAt := now }
          let events := parts1.map (fun q => (q.2, OutMsg.participantLeft ws.participantId))
          let rooms2 := if parts1.length = 0 then msDelete rooms1 ws.roomId else rooms1
          ({ s1 with rooms := rooms2, db := db1 }, events)

/-- `saveChatMessage(roomId, senderId, senderName, message)`: append to the
persisted chat log when the room document exists. -/
def saveChatMessage (db : List (String × DbRoom)) (roomId senderId senderName message : String)
    (now : Nat) : List (String × DbRoom) :=
  match msGet db roomId with
  | none => db
  | some dbRoom =>
    msSet db roomId (dbRoom.addChatMessage senderId (sOr senderName "Anonymous") (sOr message "") now)

/-- The `chat-message` case of `handleRoomMessage`: resolve sender fields
with the JS fallback chains, persist, then broadcast excluding the
sender's `ws.participantId`. -/
def handleChatMessage (s : ServerState) (c : Nat) (now : Nat)
    (dataParticipantId dataParticipantName dataSenderId dataSenderName dataMessage : Option String) :
    ServerState × List (Nat × OutMsg) :=
  let ws := s.getConn c
  let participantId := jsOr dataParticipantId ws.participantId
  let participantName := jsOr dataParticipantName (sOr ws.participantName "Anonymous")
  let chatSenderId := jsOr dataSenderId participantId
  let chatSenderName := jsOr dataSenderName participantName
  let chatMessage := jsOr dataMessage ""
  let db1 := saveChatMessage s.db ws.roomId chatSenderId chatSenderName chatMessage now
  let outgoingChat := OutMsg.chatPost ws.roomId chatSenderId chatSenderId chatSenderName chatMessage now
  let s1 := { s with db := db1 }
  (s1, broadcastToRoom s1 ws.roomId ws.participantId outgoingChat false)

/-- The relay message types of `handleDeviceMessage` that require a
`targetDeviceId`. -/
def relayTypes : List String :=
  ["call-initiate", "call-accept", "call-reject", "call-busy", "call-end",
   "call-missed", "chat-message", "webrtc-offer", "webrtc-answer", "webrtc-ice-candidate"]

/-- `updateDeviceStatus(deviceId, status)`: `findOneAndUpdate` without
upsert — update the persisted status only when the device exists. -/
def updateDeviceStatus (tbl : List (String × String)) (deviceId status : String) :
    List (String × String) :=
  match msGet tbl deviceId with
  | none => tbl
  | some _ => msSet tbl deviceId status

/-- Whitespace test for the model of JavaScript `String.prototype.trim`. -/
def isWsChar (ch : Char) : Bool :=
  ch == ' ' || ch == '\t' || ch == '\n' || ch == '\r'

/-- JavaScript `String.prototype.trim`: strip leading and trailing
whitespace, modelled on the character list. -/
def jsTrim (s : String) : String :=
  String.mk (((s.data.dropWhile isWsChar).reverse.dropWhile isWsChar).reverse)

/-- The deviceName fix-up at the top of `handleDeviceMessage`:
`if (payload.deviceName) payload.deviceName = payload.deviceName.trim() || 'Anonymous'`. -/
def normalizeDeviceName (payload0 : DevicePayload) : DevicePayload :=
  match payload0.deviceName with
  | some dn =>
    if dn = "" then payload0
    else { payload0 with deviceName := some (sOr (jsTrim dn) "Anonymous") }
  | none => payload0

/-- `handleDeviceMessage(ws, data)`: `register` binds/rebinds the device
id; relay types forward to the target device or reply with an error. -/
def handleDeviceMessage (s : ServerState) (c : Nat) (msgType : String)
    (targetDeviceId : Option String) (payload0 : DevicePayload) :
    ServerState × List (Nat × OutMsg) :=
  let ws := s.getConn c
  let payload := normalizeDeviceName payload0
  if msgType = "register" then
    let did := payload.deviceId.getD ""
    let s1 := s.setConn c { ws with deviceId := did }
    let s2 := { s1 with
      connectedDevices := msSet s1.connectedDevices did c,
      deviceStatus := updateDeviceStatus s1.deviceStatus did "online" }
    (s2, [(c, OutMsg.registered did)])
  else if msgType ∈ relayTypes then
    if targetDeviceId = none ∨ targetDeviceId = some "" then
      (s, [(c, OutMsg.errorReply "Missing targetDeviceId")])
    else
      let tid := targetDeviceId.getD ""
      match msGet s.connectedDevices tid with
      | some tc =>
        if s.connOpen tc then
          (s, [(tc, OutMsg.forwarded msgType ws.deviceId payload)])
        else
          (s, [(c, OutMsg.errorReply ("Device " ++ tid ++ " is not connected"))])
      | none => (s, [(c, OutMsg.errorReply ("Device " ++ tid ++ " is not connected"))])
  else (s, [])

/-- The device branch of the socket `close` handler: the runtime marks the
socket closed, then the handler deletes the registry entry under
`ws.deviceId` and persists status `offline`. -/
def handleDeviceClose (s : ServerState) (c : Nat) : ServerState :=
  let ws := s.getConn c
  let s1 := s.setConn c { ws with isOpen := false }
  { s1 with
    connectedDevices := msDelete s1.connectedDevices ws.deviceId,
    deviceStatus := updateDeviceStatus s1.deviceStatus ws.deviceId "offline" }

/-- Sample connection A used by concrete witnesses. -/
def wsA : Conn :=
  { roomId := "r1", participantId := "A", participantName := "Alice",
    role := "user", deviceId := "", leftHandled := false, isOpen := true }

/-- Sample connection B used by concrete witnesses. -/
def wsB : Conn :=
  { roomId := "r1", participantId := "B", participantName := "Bob",
    role := "user", deviceId := "", leftHandled := false, isOpen := true }

/-- Sample persisted room document used by concrete witnesses. -/
def dbR1 : DbRoom :=
  { roomId := "r1", sessionId := some "r1-1",
    creator := { participantId := "A", participantName := "Alice", role := "user" },
    participants := [], chatMessages := [], status := RoomStatus.waiting,
    callStartTime := none, callEndTime := none, callDuration := 0,
    sessionStartTime := some 1,
    metadata := { totalParticipants := 0, maxParticipants := 2, reconnections := 0 },
    updatedAt := 1 }

/-- Sample two-occupant server state used by concrete witnesses. -/
def chatState : ServerState :=
  { conns := [(0, wsA), (1, wsB)], rooms := [("r1", [("A", 0), ("B", 1)])],
    db := [("r1", dbR1)], connectedDevices := [], deviceStatus := [] }

/-- Sample connection seated in the active room `rL`, used by witnesses. -/
def wsL : Conn :=
  { roomId := "rL", participantId := "A", participantName := "Alice",
    role := "user", deviceId := "", leftHandled := false, isOpen := true }

/-- Sample waiting persisted room `rJ` used by witnesses. -/
def dbWaitJ : DbRoom := { dbR1 with roomId := "rJ" }

/-- Sample active persisted room `rL` (call started at 100 ms) used by
witnesses. -/
def dbActL : DbRoom :=
  { dbR1 with roomId := "rL", status := RoomStatus.active, callStartTime := some 100 }

/-- Sample server state with a waiting one-occupant room `rJ` and an
active one-occupant room `rL`, used by witnesses. -/
def stC2 : ServerState :=
  { conns := [(0, wsL), (1, wsB)],
    rooms := [("rJ", [("B", 1)]), ("rL", [("A", 0)])],
    db := [("rJ", dbWaitJ), ("rL", dbActL)],
    connectedDevices := [], deviceStatus := [] }

/-- Sample persisted room `rE` that has already ended, used by witnesses. -/
def dbEnded : DbRoom :=
  { dbR1 with
      roomId := "rE", status := RoomStatus.ended,
      callStartTime := some 10, callEndTime := some 500, callDuration := 0,
      participants := [{ participantId := "Z", participantName := "Zed", role := "user",
                         joinedAt := 5, leftAt := some 499 }] }

/-! ## Theorems -/

theorem msGet_set_self {α β : Type} [DecidableEq α] (m : List (α × β)) (k : α) (v : β) :
    msGet (msSet m k v) k = some v := by
  induction m with
  | nil => simp [msGet, msSet]
  | cons p ps ih =>
    by_cases h : p.1 = k
    · simp [msGet, msSet, h]
    · simp [msGet, msSet, h, ih]

theorem msGet_set_ne {α β : Type} [DecidableEq α] (m : List (α × β)) (k k' : α) (v : β)
    (h : k' ≠ k) : msGet (msSet m k v) k' = msGet m k' := by
  induction m with
  | nil => simp [msGet, msSet, Ne.symm h]
  | cons p ps ih =>
    by_cases hp : p.1 = k
    · simp [msGet, msSet, hp, Ne.symm h]
    · by_cases hp' : p.1 = k'
      · simp [msGet, msSet, hp, hp', h]
      · simp [msGet, msSet, hp, hp', ih]

theorem length_msSet_le {α β : Type} [DecidableEq α] (m : List (α × β)) (k : α) (v : β) :
    (msSet m k v).length ≤ m.length + 1 := by
  induction m with
  | nil => simp [msSet]
  | cons p ps ih =>
    by_cases h : p.1 = k
    · simp [msSet, h]
    · simpa [msSet, h] using Nat.succ_le_succ ih

theorem length_msSet_of_get {α β : Type} [DecidableEq α] (m : List (α × β)) (k : α)
    (v w : β) (h : msGet m k = some w) : (msSet m k v).length = m.length := by
  induction m with
  | nil => simp [msGet] at h
  | cons p ps ih =>
    by_cases hp : p.1 = k
    · simp [msSet, hp]
    · simp [msGet, hp] at h
      simp [msSet, hp, ih h]

theorem length_msDelete_le {α β : Type} [DecidableEq α] (m : List (α × β)) (k : α) :
    (msDelete m k).length ≤ m.length := by
  induction m with
  | nil => simp [msDelete]
  | cons p ps ih =>
    by_cases h : p.1 = k
    · simp only [msDelete, if_pos h, List.length_cons]
      omega
    · simp only [msDelete, if_neg h, List.length_cons]
      omega

theorem valRev_digitsRevAux : ∀ fuel n, n ≤ fuel → valRev (digitsRevAux fuel n) = n := by
  intro fuel
  induction fuel with
  | zero =>
    intro n hn
    have h0 : n = 0 := Nat.le_zero.mp hn
    subst h0
    simp [digitsRevAux, valRev]
  | succ f ih =>
    intro n hn
    by_cases h0 : n = 0
    · simp [digitsRevAux, valRev, h0]
    · have hdiv : n / 10 ≤ f := by
        have : n / 10 < n := Nat.div_lt_self (Nat.pos_of_ne_zero h0) (by norm_num)
        omega
      simp only [digitsRevAux, h0, if_false, valRev, ih _ hdiv]
      omega

theorem digitsRevAux_lt : ∀ fuel n d, d ∈ digitsRevAux fuel n → d < 10 := by
  intro fuel
  induction fuel with
  | zero => intro n d hd; simp [digitsRevAux] at hd
  | succ f ih =>
    intro n d hd
    by_cases h0 : n = 0
    · simp [digitsRevAux, h0] at hd
    · simp only [digitsRevAux, h0, if_false, List.mem_cons] at hd
      rcases hd with h | h
      · subst h
        exact Nat.mod_lt _ (by norm_num)
      · exact ih _ _ h

theorem decimalDigits_lt (n : Nat) : ∀ d ∈ decimalDigits n, d < 10 := by
  intro d hd
  by_cases h0 : n = 0
  · simp [decimalDigits, h0] at hd
    omega
  · simp only [decimalDigits, h0, if_false, List.mem_reverse] at hd
    exact digitsRevAux_lt _ _ _ hd

theorem decimalDigits_inj {a b : Nat} (h : decimalDigits a = decimalDigits b) : a = b := by
  have hva := valRev_digitsRevAux a a (le_refl a)
  have hvb := valRev_digitsRevAux b b (le_refl b)
  by_cases ha : a = 0 <;> by_cases hb : b = 0
  · omega
  · exfalso
    simp only [decimalDigits, ha, hb, if_true, if_false] at h
    have : digitsRevAux b b = [0] := by
      have := congrArg List.reverse h
      simpa using this.symm
    rw [this] at hvb
    simp [valRev] at hvb
    omega
  · exfalso
    simp only [decimalDigits, ha, hb, if_true, if_false] at h
    have : digitsRevAux a a = [0] := by
      have := congrArg List.reverse h
      simpa using this
    rw [this] at hva
    simp [valRev] at hva
    omega
  · simp only [decimalDigits, ha, hb, if_false] at h
    have h2 : digitsRevAux a a = digitsRevAux b b := by
      have := congrArg List.reverse h
      simpa using this
    rw [← hva, ← hvb, h2]

theorem digitChar_inj_lt : ∀ a < 10, ∀ b < 10, Nat.digitChar a = Nat.digitChar b → a = b := by
  decide

theorem map_digitChar_inj : ∀ l₁ l₂ : List Nat, (∀ d ∈ l₁, d < 10) → (∀ d ∈ l₂, d < 10) →
    l₁.map Nat.digitChar = l₂.map Nat.digitChar → l₁ = l₂ := by
  intro l₁
  induction l₁ with
  | nil =>
    intro l₂ _ _ h
    cases l₂ with
    | nil => rfl
    | cons x xs => simp at h
  | cons x xs ih =>
    intro l₂ h₁ h₂ h
    cases l₂ with
    | nil => simp at h
    | cons y ys =>
      simp only [List.map_cons, List.cons.injEq] at h
      have hx : x = y :=
        digitChar_inj_lt x (h₁ x (by simp)) y (h₂ y (by simp)) h.1
      have hxs : xs = ys :=
        ih ys (fun d hd => h₁ d (by simp [hd])) (fun d hd => h₂ d (by simp [hd])) h.2
      rw [hx, hxs]

theorem decimalString_inj {a b : Nat} (h : decimalString a = decimalString b) : a = b := by
  have hdata : (decimalDigits a).map Nat.digitChar = (decimalDigits b).map Nat.digitChar :=
    congrArg String.data h
  exact decimalDigits_inj
    (map_digitChar_inj _ _ (decimalDigits_lt a) (decimalDigits_lt b) hdata)

theorem mkSessionId_inj_time {r : String} {t₁ t₂ : Nat}
    (h : mkSessionId r t₁ = mkSessionId r t₂) : t₁ = t₂ := by
  have hdata := congrArg String.data h
  simp only [mkSessionId, String.data_append] at hdata
  have h2 : (decimalString t₁).data = (decimalString t₂).data :=
    List.append_cancel_left hdata
  apply decimalString_inj (a := t₁) (b := t₂)
  have hd1 : decimalString t₁ = String.mk (decimalString t₁).data := rfl
  have hd2 : decimalString t₂ = String.mk (decimalString t₂).data := rfl
  rw [hd1, hd2, h2]

/-- C1: for every room, the transient occupant count never exceeds 2
(joining preserves the bound on every room), and a `join-room` arriving
when the transient room already holds 2 participants replies to the
joining connection only with `room-status: full`, leaving the whole
server state — transient registry, persisted store, and the still-open
connection — unchanged. -/
theorem joinRoom_capacity_two (s : ServerState) (c now : Nat)
    (roomId participantId participantName role : String)
    (hbound : ∀ rid ps, msGet s.rooms rid = some ps → ps.length ≤ 2) :
    (∀ rid ps,
        msGet (handleJoinRoom s c now roomId participantId participantName role).1.rooms rid =
          some ps → ps.length ≤ 2) ∧
    (∀ parts, msGet s.rooms roomId = some parts → 2 ≤ parts.length →
        handleJoinRoom s c now roomId participantId participantName role =
          (s, [(c, OutMsg.roomFull roomId)])) := by
  constructor
  · intro rid ps hps
    by_cases hR : ∃ parts, msGet s.rooms roomId = some parts
    · obtain ⟨parts, hp⟩ := hR
      by_cases hlen : 2 ≤ parts.length
      · simp only [handleJoinRoom, hp, Option.isSome_some, if_true, Option.getD_some,
          hlen] at hps
        exact hbound rid ps hps
      · cases hparts : parts with
        | nil =>
          subst hparts
          simp only [handleJoinRoom, hp, Option.isSome_some, if_true, Option.getD_some,
            List.length_nil, show ¬(2 ≤ 0) by omega, if_false] at hps
          by_cases hrid : rid = roomId
          · subst hrid
            rw [msGet_set_self] at hps
            cases hps
            simp [msSet]
          · rw [msGet_set_ne _ _ _ _ hrid] at hps
            exact hbound rid ps hps
        | cons q qs =>
          subst hparts
          have hlen1 : qs.length = 0 := by
            simp only [List.length_cons] at hlen
            omega
          simp only [handleJoinRoom, hp, Option.isSome_some, if_true, Option.getD_some,
            hlen, if_false] at hps
          by_cases hrid : rid = roomId
          · subst hrid
            rw [msGet_set_self] at hps
            cases hps
            calc (msSet (q :: qs) participantId c).length
                ≤ (q :: qs).length + 1 := length_msSet_le _ _ _
              _ ≤ 2 := by simp [hlen1]
          · rw [msGet_set_ne _ _ _ _ hrid] at hps
            exact hbound rid ps hps
    · have hnone : msGet s.rooms roomId = none := by
        cases hv : msGet s.rooms roomId with
        | none => rfl
        | some v => exact absurd ⟨v, hv⟩ hR
      simp only [handleJoinRoom, hnone, Option.isSome_none, Bool.false_eq_true, if_false,
        msGet_set_self, Option.getD_some, List.length_nil, show ¬(2 ≤ 0) by omega] at hps
      by_cases hrid : rid = roomId
      · subst hrid
        rw [msGet_set_self] at hps
        cases hps
        simp [msSet]
      · rw [msGet_set_ne _ _ _ _ hrid, msGet_set_ne _ _ _ _ hrid] at hps
        exact hbound rid ps hps
  · intro parts hp hlen
    simp [handleJoinRoom, hp, hlen]

/-- C1 witness: a concrete two-occupant room in which a third join yields
exactly the `full` reply and changes nothing. -/
theorem joinRoom_capacity_two_witness :
    (∀ rid ps,
        msGet (handleJoinRoom
          { conns := [(0, { roomId := "r1", participantId := "A", participantName := "Alice",
                            role := "user", deviceId := "", leftHandled := false, isOpen := true }),
                      (1, { roomId := "r1", participantId := "B", participantName := "Bob",
                            role := "user", deviceId := "", leftHandled := false, isOpen := true })],
            rooms := [("r1", [("A", 0), ("B", 1)])], db := [], connectedDevices := [],
            deviceStatus := [] } 2 300 "r1" "C" "Cara" "user").1.rooms rid =
          some ps → ps.length ≤ 2) ∧
    (∀ parts,
        msGet ({ conns := [(0, { roomId := "r1", participantId := "A", participantName := "Alice",
                                 role := "user", deviceId := "", leftHandled := false, isOpen := true }),
                           (1, { roomId := "r1", participantId := "B", participantName := "Bob",
                                 role := "user", deviceId := "", leftHandled := false, isOpen := true })],
                 rooms := [("r1", [("A", 0), ("B", 1)])], db := [], connectedDevices := [],
                 deviceStatus := [] } : ServerState).rooms "r1" = some parts → 2 ≤ parts.length →
        handleJoinRoom
          { conns := [(0, { roomId := "r1", participantId := "A", participantName := "Alice",
                            role := "user", deviceId := "", leftHandled := false, isOpen := true }),
                      (1, { roomId := "r1", participantId := "B", participantName := "Bob",
                            role := "user", deviceId := "", leftHandled := false, isOpen := true })],
            rooms := [("r1", [("A", 0), ("B", 1)])], db := [], connectedDevices := [],
            deviceStatus := [] } 2 300 "r1" "C" "Cara" "user" =
          ({ conns := [(0, { roomId := "r1", participantId := "A", participantName := "Alice",
                             role := "user", deviceId := "", leftHandled := false, isOpen := true }),
                       (1, { roomId := "r1", participantId := "B", participantName := "Bob",
                             role := "user", deviceId := "", leftHandled := false, isOpen := true })],
              rooms := [("r1", [("A", 0), ("B", 1)])], db := [], connectedDevices := [],
              deviceStatus := [] }, [(2, OutMsg.roomFull "r1")])) :=
  joinRoom_capacity_two _ 2 300 "r1" "C" "Cara" "user" (by
    intro rid ps h
    simp only [msGet] at h
    split at h
    · cases h
      decide
    · cases h)

/-- C6: the leave protocol is idempotent per connection. Both the
`leave-room` message and the socket close handler invoke
`handleParticipantLeave`; the `leftHandled` one-shot flag makes the second
invocation (in any combination of the two triggers) a no-op: the state is
untouched and no message is sent, so two executions observably equal one. -/
theorem participantLeave_idempotent (s : ServerState) (c : Nat) (now₁ now₂ : Nat) :
    handleParticipantLeave (handleParticipantLeave s c now₁).1 c now₂ =
      ((handleParticipantLeave s c now₁).1, []) := by
  cases hws : msGet s.conns c with
  | none => simp [handleParticipantLeave, hws]
  | some ws =>
    cases hl : ws.leftHandled with
    | true => simp [handleParticipantLeave, hws, hl]
    | false =>
      set t := handleParticipantLeave s c now₁ with ht
      have hconns : t.1.conns = msSet s.conns c { ws with leftHandled := true } := by
        rw [ht]
        simp only [handleParticipantLeave, hws, hl, Bool.false_eq_true, if_false]
        split
        · rfl
        · split
          · rfl
          · rfl
      simp only [handleParticipantLeave, hconns, msGet_set_self]
      exact if_pos trivial

/-- C4: an `admin-control-media` message from a connection whose role is
not `admin` yields exactly one error reply to the sender and is never
forwarded; from an admin connection it is forwarded only to the named
target connection with `fromAdmin` set to the sender's participantId, and
when the sender's room is unregistered, the target is not seated, or the
target's socket is not open, it is silently dropped with no error reply. -/
theorem adminMediaControl_authorization (s : ServerState) (c : Nat)
    (targetParticipantId mediaType : String) (enabled : Bool) :
    ((s.getConn c).role ≠ "admin" →
        handleAdminMediaControl s c targetParticipantId mediaType enabled =
          [(c, OutMsg.errorReply "Only admins can control participant media")]) ∧
    ((s.getConn c).role = "admin" →
      ∀ parts tc, msGet s.rooms (s.getConn c).roomId = some parts →
        msGet parts targetParticipantId = some tc → s.connOpen tc = true →
        handleAdminMediaControl s c targetParticipantId mediaType enabled =
          [(tc, OutMsg.adminMediaControl mediaType enabled (s.getConn c).participantId)]) ∧
    ((s.getConn c).role = "admin" → msGet s.rooms (s.getConn c).roomId = none →
        handleAdminMediaControl s c targetParticipantId mediaType enabled = []) ∧
    ((s.getConn c).role = "admin" →
      ∀ parts, msGet s.rooms (s.getConn c).roomId = some parts →
        msGet parts targetParticipantId = none →
        handleAdminMediaControl s c targetParticipantId mediaType enabled = []) ∧
    ((s.getConn c).role = "admin" →
      ∀ parts tc, msGet s.rooms (s.getConn c).roomId = some parts →
        msGet parts targetParticipantId = some tc → s.connOpen tc = false →
        handleAdminMediaControl s c targetParticipantId mediaType enabled = []) := by
  refine ⟨?_, ?_, ?_, ?_, ?_⟩
  · intro hrole
    simp [handleAdminMediaControl, hrole]
  · intro hrole parts tc hparts htc hopen
    simp [handleAdminMediaControl, hrole, hparts, htc, hopen]
  · intro hrole hparts
    simp [handleAdminMediaControl, hrole, hparts]
  · intro hrole parts hparts htc
    simp [handleAdminMediaControl, hrole, hparts, htc]
  · intro hrole parts tc hparts htc hopen
    simp [handleAdminMediaControl, hrole, hparts, htc, hopen]

/-- C4 witness: a concrete user-role sender receives exactly one error
reply, and a concrete admin-to-open-target control is forwarded to the
target only, with `fromAdmin` set. -/
theorem adminMediaControl_authorization_witness :
    handleAdminMediaControl
        { conns := [(0, { roomId := "r1", participantId := "A", participantName := "Alice",
                          role := "user", deviceId := "", leftHandled := false, isOpen := true }),
                    (1, { roomId := "r1", participantId := "B", participantName := "Bob",
                          role := "admin", deviceId := "", leftHandled := false, isOpen := true })],
          rooms := [("r1", [("A", 0), ("B", 1)])], db := [], connectedDevices := [],
          deviceStatus := [] } 0 "B" "audio" false =
      [(0, OutMsg.errorReply "Only admins can control participant media")] ∧
    handleAdminMediaControl
        { conns := [(0, { roomId := "r1", participantId := "A", participantName := "Alice",
                          role := "user", deviceId := "", leftHandled := false, isOpen := true }),
                    (1, { roomId := "r1", participantId := "B", participantName := "Bob",
                          role := "admin", deviceId := "", leftHandled := false, isOpen := true })],
          rooms := [("r1", [("A", 0), ("B", 1)])], db := [], connectedDevices := [],
          deviceStatus := [] } 1 "A" "video" false =
      [(0, OutMsg.adminMediaControl "video" false "B")] :=
  ⟨(adminMediaControl_authorization _ 0 "B" "audio" false).1 (by decide),
   (adminMediaControl_authorization _ 1 "A" "video" false).2.1 (by decide) [("A", 0), ("B", 1)]
     0 (by decide) (by decide) (by decide)⟩

/-- C5 counterexample: the relay does not forward the payload minus the
routing fields unchanged — `handleDeviceMessage` first rewrites a present
`deviceName` (trimming it, defaulting blanks to "Anonymous"), so a target
receives `deviceName := "Bob"` where the sender's payload carried
`" Bob "`. -/
theorem deviceRelay_not_verbatim :
    (handleDeviceMessage
        { conns := [(0, { roomId := "", participantId := "", participantName := "Anonymous",
                          role := "user", deviceId := "D1", leftHandled := false, isOpen := true }),
                    (1, { roomId := "", participantId := "", participantName := "Anonymous",
                          role := "user", deviceId := "D2", leftHandled := false, isOpen := true })],
          rooms := [], db := [], connectedDevices := [("D1", 0), ("D2", 1)],
          deviceStatus := [] } 1 "call-initiate" (some "D1")
        { deviceId := none, deviceName := some " Bob ", rest := [] }).2 =
      [(0, OutMsg.forwarded "call-initiate" "D2"
        { deviceId := none, deviceName := some "Bob", rest := [] })] ∧
    ({ deviceId := none, deviceName := some "Bob", rest := [] } : DevicePayload) ≠
      { deviceId := none, deviceName := some " Bob ", rest := [] } := by
  constructor
  · decide
  · decide

/-- C5 amended: for every relay message type, a present non-empty
`targetDeviceId` that is absent from the device registry or whose
connection is not open produces exactly one error reply to the sender
naming the missing device; otherwise the payload minus the routing
fields — after the deviceName trim/defaulting fix-up — is forwarded only
to the target with `fromDeviceId` set to the sender's device id. State is
unchanged in all three cases. -/
theorem deviceRelay_target_check (s : ServerState) (c : Nat) (msgType : String)
    (tid : String) (payload0 : DevicePayload)
    (htype : msgType ∈ relayTypes) (htid : tid ≠ "") :
    (msGet s.connectedDevices tid = none →
        handleDeviceMessage s c msgType (some tid) payload0 =
          (s, [(c, OutMsg.errorReply ("Device " ++ tid ++ " is not connected"))])) ∧
    (∀ tc, msGet s.connectedDevices tid = some tc → s.connOpen tc = false →
        handleDeviceMessage s c msgType (some tid) payload0 =
          (s, [(c, OutMsg.errorReply ("Device " ++ tid ++ " is not connected"))])) ∧
    (∀ tc, msGet s.connectedDevices tid = some tc → s.connOpen tc = true →
        handleDeviceMessage s c msgType (some tid) payload0 =
          (s, [(tc, OutMsg.forwarded msgType (s.getConn c).deviceId
                 (normalizeDeviceName payload0))])) := by
  have hreg : msgType ≠ "register" := by
    intro h
    subst h
    exact absurd htype (by decide)
  refine ⟨?_, ?_, ?_⟩
  · intro habs
    simp [handleDeviceMessage, hreg, htype, htid, habs]
  · intro tc htc hopen
    simp [handleDeviceMessage, hreg, htype, htid, htc, hopen]
  · intro tc htc hopen
    simp [handleDeviceMessage, hreg, htype, htid, htc, hopen]

/-- C5 witness: with `D1` registered and open, `D2`'s `call-initiate` is
forwarded to `D1` with `fromDeviceId := "D2"`; with target `D9` never
registered, the sender receives the error naming `D9`. -/
theorem deviceRelay_target_check_witness :
    handleDeviceMessage
        { conns := [(0, { roomId := "", participantId := "", participantName := "Anonymous",
                          role := "user", deviceId := "D1", leftHandled := false, isOpen := true }),
                    (1, { roomId := "", participantId := "", participantName := "Anonymous",
                          role := "user", deviceId := "D2", leftHandled := false, isOpen := true })],
          rooms := [], db := [], connectedDevices := [("D1", 0), ("D2", 1)],
          deviceStatus := [] } 1 "call-initiate" (some "D1")
        { deviceId := none, deviceName := none, rest := [("callType", "video")] } =
      ({ conns := [(0, { roomId := "", participantId := "", participantName := "Anonymous",
                         role := "user", deviceId := "D1", leftHandled := false, isOpen := true }),
                   (1, { roomId := "", participantId := "", participantName := "Anonymous",
                         role := "user", deviceId := "D2", leftHandled := false, isOpen := true })],
         rooms := [], db := [], connectedDevices := [("D1", 0), ("D2", 1)],
         deviceStatus := [] },
       [(0, OutMsg.forwarded "call-initiate" "D2"
          { deviceId := none, deviceName := none, rest := [("callType", "video")] })]) ∧
    handleDeviceMessage
        { conns := [(0, { roomId := "", participantId := "", participantName := "Anonymous",
                          role := "user", deviceId := "D1", leftHandled := false, isOpen := true }),
                    (1, { roomId := "", participantId := "", participantName := "Anonymous",
                          role := "user", deviceId := "D2", leftHandled := false, isOpen := true })],
          rooms := [], db := [], connectedDevices := [("D1", 0), ("D2", 1)],
          deviceStatus := [] } 1 "call-initiate" (some "D9")
        { deviceId := none, deviceName := none, rest := [] } =
      ({ conns := [(0, { roomId := "", participantId := "", participantName := "Anonymous",
                         role := "user", deviceId := "D1", leftHandled := false, isOpen := true }),
                   (1, { roomId := "", participantId := "", participantName := "Anonymous",
                         role := "user", deviceId := "D2", leftHandled := false, isOpen := true })],
         rooms := [], db := [], connectedDevices := [("D1", 0), ("D2", 1)],
         deviceStatus := [] },
       [(1, OutMsg.errorReply ("Device " ++ "D9" ++ " is not connected"))]) :=
  ⟨((deviceRelay_target_check _ 1 "call-initiate" "D1"
        { deviceId := none, deviceName := none, rest := [("callType", "video")] }
        (by decide) (by decide)).2.2 0 (by decide) (by decide)),
   ((deviceRelay_target_check _ 1 "call-initiate" "D9"
        { deviceId := none, deviceName := none, rest := [] }
        (by decide) (by decide)).1 (by decide))⟩

theorem msGet_eq_none_of_not_mem {α β : Type} [DecidableEq α] (m : List (α × β)) (k : α)
    (h : k ∉ m.map Prod.fst) : msGet m k = none := by
  induction m with
  | nil => rfl
  | cons p ps ih =>
    simp only [List.map_cons, List.mem_cons] at h
    push_neg at h
    have hne : ¬ p.1 = k := fun hh => h.1 hh.symm
    simp only [msGet, if_neg hne]
    exact ih h.2

theorem mem_keys_msSet {α β : Type} [DecidableEq α] (m : List (α × β)) (k a : α) (v : β)
    (h : a ∈ (msSet m k v).map Prod.fst) : a ∈ m.map Prod.fst ∨ a = k := by
  induction m with
  | nil =>
    simp [msSet] at h
    exact Or.inr h
  | cons p ps ih =>
    by_cases hp : p.1 = k
    · simp only [msSet, if_pos hp, List.map_cons, List.mem_cons] at h
      rcases h with h | h
      · exact Or.inr h
      · exact Or.inl (by simp [h])
    · simp only [msSet, if_neg hp, List.map_cons, List.mem_cons] at h
      rcases h with h | h
      · exact Or.inl (by simp [h])
      · rcases ih h with h' | h'
        · exact Or.inl (by simp [h'])
        · exact Or.inr h'

theorem nodupKeys_msSet {α β : Type} [DecidableEq α] (m : List (α × β)) (k : α) (v : β)
    (h : (m.map Prod.fst).Nodup) : ((msSet m k v).map Prod.fst).Nodup := by
  induction m with
  | nil => simp [msSet]
  | cons p ps ih =>
    simp only [List.map_cons, List.nodup_cons] at h
    by_cases hp : p.1 = k
    · simp only [msSet, if_pos hp, List.map_cons, List.nodup_cons]
      exact ⟨by rw [← hp]; exact h.1, h.2⟩
    · simp only [msSet, if_neg hp, List.map_cons, List.nodup_cons]
      refine ⟨fun hmem => ?_, ih h.2⟩
      rcases mem_keys_msSet ps k p.1 v hmem with h' | h'
      · exact h.1 h'
      · exact hp h'

theorem msGet_delete_self_of_nodup {α β : Type} [DecidableEq α] (m : List (α × β)) (k : α)
    (h : (m.map Prod.fst).Nodup) : msGet (msDelete m k) k = none := by
  induction m with
  | nil => rfl
  | cons p ps ih =>
    simp only [List.map_cons, List.nodup_cons] at h
    by_cases hp : p.1 = k
    · simp only [msDelete, if_pos hp]
      exact msGet_eq_none_of_not_mem ps k (by rw [← hp]; exact h.1)
    · simp only [msDelete, if_neg hp, msGet, if_neg hp]
      exact ih h.2

/-- C10: after a `register` message rebinds deviceId `d` from an old
connection to a new one, a close of the old connection deletes `d` from
the device registry (removing the new connection's binding) and sets the
persisted device status to `offline`, even though the new connection is
still registered in the connection table, open, and bound to `d` — so a
registered open device connection is left unreachable via the registry. -/
theorem deviceClose_after_rebind (s : ServerState) (c₁ c₂ : Nat) (d : String)
    (w₁ w₂ : Conn) (hc₁ : msGet s.conns c₁ = some w₁) (hd : w₁.deviceId = d)
    (hc₂ : msGet s.conns c₂ = some w₂) (hopen : w₂.isOpen = true)
    (hne : c₁ ≠ c₂) (stat : String) (hstat : msGet s.deviceStatus d = some stat)
    (hnodup : (s.connectedDevices.map Prod.fst).Nodup) :
    msGet (handleDeviceMessage s c₂ "register" none
        { deviceId := some d, deviceName := none, rest := [] }).1.connectedDevices d =
      some c₂ ∧
    msGet (handleDeviceClose (handleDeviceMessage s c₂ "register" none
        { deviceId := some d, deviceName := none, rest := [] }).1 c₁).connectedDevices d =
      none ∧
    msGet (handleDeviceClose (handleDeviceMessage s c₂ "register" none
        { deviceId := some d, deviceName := none, rest := [] }).1 c₁).deviceStatus d =
      some "offline" ∧
    msGet (handleDeviceClose (handleDeviceMessage s c₂ "register" none
        { deviceId := some d, deviceName := none, rest := [] }).1 c₁).conns c₂ =
      some { w₂ with deviceId := d } ∧
    ({ w₂ with deviceId := d } : Conn).isOpen = true := by
  have hreg : (handleDeviceMessage s c₂ "register" none
      { deviceId := some d, deviceName := none, rest := [] }).1 =
      { s with conns := msSet s.conns c₂ { w₂ with deviceId := d },
               connectedDevices := msSet s.connectedDevices d c₂,
               deviceStatus := msSet s.deviceStatus d "online" } := by
    simp [handleDeviceMessage, normalizeDeviceName, updateDeviceStatus, hstat,
      ServerState.getConn, ServerState.setConn, hc₂]
  have hclose : handleDeviceClose (handleDeviceMessage s c₂ "register" none
      { deviceId := some d, deviceName := none, rest := [] }).1 c₁ =
      { s with
          conns := msSet (msSet s.conns c₂ { w₂ with deviceId := d }) c₁
            { w₁ with isOpen := false },
          connectedDevices := msDelete (msSet s.connectedDevices d c₂) d,
          deviceStatus := msSet (msSet s.deviceStatus d "online") d "offline" } := by
    rw [hreg]
    simp [handleDeviceClose, ServerState.getConn, ServerState.setConn,
      msGet_set_ne _ _ _ _ hne, hc₁, hd, updateDeviceStatus, msGet_set_self]
  refine ⟨?_, ?_, ?_, ?_, hopen⟩
  · rw [hreg]
    exact msGet_set_self _ _ _
  · rw [hclose]
    exact msGet_delete_self_of_nodup _ _ (nodupKeys_msSet _ _ _ hnodup)
  · rw [hclose]
    exact msGet_set_self _ _ _
  · rw [hclose]
    rw [show msGet (msSet (msSet s.conns c₂ { w₂ with deviceId := d }) c₁
      { w₁ with isOpen := false }) c₂ =
        msGet (msSet s.conns c₂ { w₂ with deviceId := d }) c₂ from
      msGet_set_ne _ _ _ _ (Ne.symm hne)]
    exact msGet_set_self _ _ _

/-- C10 witness: device `D` bound to connection 0, rebound to connection 1
by `register`; closing connection 0 then leaves `D` unreachable in the
registry and `offline` in the store while connection 1 is open. -/
theorem deviceClose_after_rebind_witness :
    msGet (handleDeviceMessage
        { conns := [(0, { roomId := "", participantId := "", participantName := "Anonymous",
                          role := "user", deviceId := "D", leftHandled := false, isOpen := true }),
                    (1, { roomId := "", participantId := "", participantName := "Anonymous",
                          role := "user", deviceId := "", leftHandled := false, isOpen := true })],
          rooms := [], db := [], connectedDevices := [("D", 0)],
          deviceStatus := [("D", "online")] } 1 "register" none
        { deviceId := some "D", deviceName := none, rest := [] }).1.connectedDevices "D" =
      some 1 ∧
    msGet (handleDeviceClose (handleDeviceMessage
        { conns := [(0, { roomId := "", participantId := "", participantName := "Anonymous",
                          role := "user", deviceId := "D", leftHandled := false, isOpen := true }),
                    (1, { roomId := "", participantId := "", participantName := "Anonymous",
                          role := "user", deviceId := "", leftHandled := false, isOpen := true })],
          rooms := [], db := [], connectedDevices := [("D", 0)],
          deviceStatus := [("D", "online")] } 1 "register" none
        { deviceId := some "D", deviceName := none, rest := [] }).1 0).connectedDevices "D" =
      none ∧
    msGet (handleDeviceClose (handleDeviceMessage
        { conns := [(0, { roomId := "", participantId := "", participantName := "Anonymous",
                          role := "user", deviceId := "D", leftHandled := false, isOpen := true }),
                    (1, { roomId := "", participantId := "", participantName := "Anonymous",
                          role := "user", deviceId := "", leftHandled := false, isOpen := true })],
          rooms := [], db := [], connectedDevices := [("D", 0)],
          deviceStatus := [("D", "online")] } 1 "register" none
        { deviceId := some "D", deviceName := none, rest := [] }).1 0).deviceStatus "D" =
      some "offline" ∧
    msGet (handleDeviceClose (handleDeviceMessage
        { conns := [(0, { roomId := "", participantId := "", participantName := "Anonymous",
                          role := "user", deviceId := "D", leftHandled := false, isOpen := true }),
                    (1, { roomId := "", participantId := "", participantName := "Anonymous",
                          role := "user", deviceId := "", leftHandled := false, isOpen := true })],
          rooms := [], db := [], connectedDevices := [("D", 0)],
          deviceStatus := [("D", "online")] } 1 "register" none
        { deviceId := some "D", deviceName := none, rest := [] }).1 0).conns 1 =
      some ({ roomId := "", participantId := "", participantName := "Anonymous",
              role := "user", deviceId := "D", leftHandled := false, isOpen := true }) ∧
    ({ roomId := "", participantId := "", participantName := "Anonymous",
       role := "user", deviceId := "D", leftHandled := false, isOpen := true } : Conn).isOpen =
      true :=
  deviceClose_after_rebind _ 0 1 "D"
    { roomId := "", participantId := "", participantName := "Anonymous",
      role := "user", deviceId := "D", leftHandled := false, isOpen := true }
    { roomId := "", participantId := "", participantName := "Anonymous",
      role := "user", deviceId := "", leftHandled := false, isOpen := true }
    (by decide) (by decide) (by decide) (by decide) (by decide) "online" (by decide) (by decide)

theorem connOpen_db (s : ServerState) (db' : List (String × DbRoom)) (c : Nat) :
    ServerState.connOpen { s with db := db' } c = s.connOpen c := rfl

theorem sOr_empty (a : String) : sOr a "" = a := by
  unfold sOr
  split
  · next h => exact h.symm
  · rfl

/-- C3 counterexample: the broadcast excludes occupants by comparing the
registry key against the sender's `ws.participantId` attribute, not by
connection identity. A connection whose handshake carried participantId
`P1` can seat itself under `P2` via the `data.participantId` override of
`join-room`; its next `chat-message` is then delivered back to itself —
the sole event targets connection 0, the sender. -/
theorem chatMessage_echo_to_sender :
    ((handleChatMessage
        (handleJoinRoom
          { conns := [(0, { roomId := "r1", participantId := "P1", participantName := "Alice",
                            role := "user", deviceId := "", leftHandled := false, isOpen := true })],
            rooms := [], db := [], connectedDevices := [], deviceStatus := [] }
          0 100 "r1" "P2" "Alice" "user").1
        0 200 none none none none (some "hi")).2.map Prod.fst) = [0] := by
  decide

/-- C3 amended: a `chat-message` is persisted to the room's chat log and
then delivered to exactly those currently-registered open connections
whose registry key differs from the sender connection's `participantId`
attribute; it is never delivered to the sender provided the sender is
registered only under its own `participantId` (without that proviso the
sender can receive an echo), and with 0 other occupants it is persisted
but delivered to nobody. -/
theorem chatMessage_persist_broadcast (s : ServerState) (c now : Nat)
    (dpid dpname dsid dsname : Option String) (mtxt : String)
    (parts : List (String × Nat)) (dbR : DbRoom)
    (hparts : msGet s.rooms (s.getConn c).roomId = some parts)
    (hdb : msGet s.db (s.getConn c).roomId = some dbR) :
    ∃ sid sname,
      (handleChatMessage s c now dpid dpname dsid dsname (some mtxt)).1.db =
        msSet s.db (s.getConn c).roomId
          (dbR.addChatMessage sid (sOr sname "Anonymous") mtxt now) ∧
      (handleChatMessage s c now dpid dpname dsid dsname (some mtxt)).2 =
        parts.filterMap (fun q =>
          if (q.1 != (s.getConn c).participantId) && s.connOpen q.2 then
            some (q.2, OutMsg.chatPost (s.getConn c).roomId sid sid sname mtxt now)
          else none) ∧
      ((∀ q ∈ parts, q.2 = c → q.1 = (s.getConn c).participantId) →
        ∀ e ∈ (handleChatMessage s c now dpid dpname dsid dsname (some mtxt)).2, e.1 ≠ c) ∧
      ((∀ q ∈ parts, q.1 = (s.getConn c).participantId) →
        (handleChatMessage s c now dpid dpname dsid dsname (some mtxt)).2 = []) := by
  refine ⟨jsOr dsid (jsOr dpid (s.getConn c).participantId),
          jsOr dsname (jsOr dpname (sOr (s.getConn c).participantName "Anonymous")), ?_, ?_, ?_, ?_⟩
  · simp [handleChatMessage, saveChatMessage, hdb, jsOr, sOr_empty]
  · simp [handleChatMessage, broadcastToRoom, hparts, jsOr, sOr_empty, ServerState.connOpen]
  · intro hself e he
    simp only [handleChatMessage, broadcastToRoom, connOpen_db, hparts, Bool.false_or,
      List.mem_filterMap] at he
    obtain ⟨q, hqmem, hqe⟩ := he
    by_cases hcond : ((q.1 != (s.getConn c).participantId) && s.connOpen q.2) = true
    · rw [if_pos hcond] at hqe
      injection hqe with hqe'
      subst hqe'
      intro hec
      have hq1 : q.1 = (s.getConn c).participantId := hself q hqmem hec
      simp [hq1] at hcond
    · rw [if_neg hcond] at hqe
      simp at hqe
  · intro hall
    simp only [handleChatMessage, broadcastToRoom, connOpen_db, hparts, Bool.false_or]
    refine List.filterMap_eq_nil_iff.mpr ?_
    intro q hq
    simp [hall q hq]

/-- C3 witness: in a concrete two-occupant room the message is persisted
and delivered exactly to the other open occupant, never to the sender. -/
theorem chatMessage_persist_broadcast_witness :
    ∃ sid sname,
      (handleChatMessage chatState 0 200 none none none none (some "hi")).1.db =
        msSet chatState.db (chatState.getConn 0).roomId
          (dbR1.addChatMessage sid (sOr sname "Anonymous") "hi" 200) ∧
      (handleChatMessage chatState 0 200 none none none none (some "hi")).2 =
        List.filterMap (fun q =>
          if (q.1 != (chatState.getConn 0).participantId) && chatState.connOpen q.2 then
            some (q.2, OutMsg.chatPost (chatState.getConn 0).roomId sid sid sname "hi" 200)
          else none) [("A", 0), ("B", 1)] ∧
      ((∀ q ∈ [(("A" : String), (0 : Nat)), ("B", 1)],
          q.2 = 0 → q.1 = (chatState.getConn 0).participantId) →
        ∀ e ∈ (handleChatMessage chatState 0 200 none none none none (some "hi")).2,
          e.1 ≠ 0) ∧
      ((∀ q ∈ [(("A" : String), (0 : Nat)), ("B", 1)],
          q.1 = (chatState.getConn 0).participantId) →
        (handleChatMessage chatState 0 200 none none none none (some "hi")).2 = []) :=
  chatMessage_persist_broadcast chatState 0 200 none none none none "hi"
    [("A", 0), ("B", 1)] dbR1 (by decide) (by decide)

/-- C7: a `join-room` whose participantId is already recorded in the
persisted participant list, arriving while the transient room is below
capacity, is idempotent on the persisted record — the persisted
participant count does not increase — and the transient registry entry
for that id is replaced by the new connection. -/
theorem joinRoom_rejoin_idempotent (s : ServerState) (c now : Nat)
    (roomId participantId participantName role : String)
    (parts : List (String × Nat)) (dbR : DbRoom)
    (hparts : msGet s.rooms roomId = some parts) (hlen : parts.length < 2)
    (hdb : msGet s.db roomId = some dbR)
    (hrec : participantId ∈ dbR.participants.map DbParticipant.participantId) :
    (∀ dbR', msGet (handleJoinRoom s c now roomId participantId participantName role).1.db
        roomId = some dbR' →
      dbR'.participants.length ≤ dbR.participants.length) ∧
    msGet (handleJoinRoom s c now roomId participantId participantName role).1.rooms roomId =
      some (msSet parts participantId c) ∧
    msGet (msSet parts participantId c) participantId = some c := by
  have hnot2 : ¬ 2 ≤ parts.length := by omega
  have hany : dbR.participants.any (fun p => p.participantId == participantId) = true := by
    rw [List.any_eq_true]
    simp only [List.mem_map] at hrec
    obtain ⟨p, hp, hpe⟩ := hrec
    exact ⟨p, hp, by simp [hpe]⟩
  have hn1 : 1 ≤ dbR.participants.length := by
    simp only [List.mem_map] at hrec
    obtain ⟨p, hp, _⟩ := hrec
    exact List.length_pos_of_mem hp
  have hrooms : (handleJoinRoom s c now roomId participantId participantName role).1.rooms =
      msSet s.rooms roomId (msSet parts participantId c) := by
    cases parts with
    | nil =>
      simp only [handleJoinRoom, hparts, Option.isSome_some, if_true, Option.getD_some,
        hnot2, if_false, hdb]
    | cons q qs =>
      simp only [handleJoinRoom, hparts, Option.isSome_some, if_true, Option.getD_some,
        hnot2, if_false, hdb]
  refine ⟨?_, ?_, msGet_set_self _ _ _⟩
  swap
  · rw [hrooms]
    exact msGet_set_self _ _ _
  intro dbR' hget
  by_cases hend : dbR.status = RoomStatus.ended
  · cases parts with
    | nil =>
      simp only [handleJoinRoom, hparts, Option.isSome_some, if_true, Option.getD_some,
        hnot2, if_false, hdb, hend, if_true, DbRoom.addParticipant,
        List.any_nil, Bool.false_eq_true, List.nil_append] at hget
      rw [msGet_set_self] at hget
      injection hget with h'
      subst h'
      simpa using hn1
    | cons q qs =>
      simp only [handleJoinRoom, hparts, Option.isSome_some, if_true, Option.getD_some,
        hnot2, if_false, hdb, hend, if_true, DbRoom.addParticipant,
        List.any_nil, Bool.false_eq_true, List.nil_append] at hget
      rw [msGet_set_self] at hget
      injection hget with h'
      subst h'
      simpa using hn1
  · cases parts with
    | nil =>
      simp only [handleJoinRoom, hparts, Option.isSome_some, if_true, Option.getD_some,
        hnot2, if_false, hdb, hend, hany, if_true] at hget
      injection hget with h'
      subst h'
      exact le_refl _
    | cons q qs =>
      by_cases hw : dbR.status = RoomStatus.waiting
      · simp only [handleJoinRoom, hparts, Option.isSome_some, if_true, Option.getD_some,
          hnot2, if_false, hdb, hend, hany, hw,
          (show ¬ RoomStatus.waiting = RoomStatus.ended by decide), eq_self_iff_true,
          if_true] at hget
        rw [msGet_set_self] at hget
        injection hget with h'
        subst h'
        exact le_refl _
      · simp only [handleJoinRoom, hparts, Option.isSome_some, if_true, Option.getD_some,
          hnot2, if_false, hdb, hend, hany, hw, if_true] at hget
        injection hget with h'
        subst h'
        exact le_refl _

/-- C7 witness: participant `A` is already recorded in the persisted
list; a rejoin on a fresh connection keeps the persisted count at 1 and
reseats `A` on the new connection. -/
theorem joinRoom_rejoin_idempotent_witness :
    (∀ dbR', msGet (handleJoinRoom
        { conns := [(0, wsA), (2, wsA)],
          rooms := [("r1", [("A", 0)])],
          db := [("r1", { dbR1 with participants :=
            [{ participantId := "A", participantName := "Alice", role := "user",
               joinedAt := 1, leftAt := none }] })],
          connectedDevices := [], deviceStatus := [] } 2 700 "r1" "A" "Alice" "user").1.db
        "r1" = some dbR' →
      dbR'.participants.length ≤
        ({ dbR1 with participants :=
            [{ participantId := "A", participantName := "Alice", role := "user",
               joinedAt := 1, leftAt := none }] } : DbRoom).participants.length) ∧
    msGet (handleJoinRoom
        { conns := [(0, wsA), (2, wsA)],
          rooms := [("r1", [("A", 0)])],
          db := [("r1", { dbR1 with participants :=
            [{ participantId := "A", participantName := "Alice", role := "user",
               joinedAt := 1, leftAt := none }] })],
          connectedDevices := [], deviceStatus := [] } 2 700 "r1" "A" "Alice" "user").1.rooms
      "r1" = some (msSet [("A", 0)] "A" 2) ∧
    msGet (msSet [("A", 0)] "A" 2) "A" = some 2 :=
  joinRoom_rejoin_idempotent _ 2 700 "r1" "A" "Alice" "user" [("A", 0)] _
    (by decide) (by decide) (by decide) (by decide)

/-- C9: a `join-room` with the same participantId as the sole current
occupant is treated as the second occupant: the pre-overwrite snapshot
makes the rejoiner receive `room-status: ready` whose otherParticipant is
its own stale connection, sends `participant-joined` to that stale
connection, and — when the persisted status was `waiting` — transitions
the room to `active` with `callStartTime` set, while the registry ends at
one occupant seated on the new connection. -/
theorem joinRoom_same_id_rejoin (s : ServerState) (c oldC now : Nat)
    (roomId pid pname role : String) (dbR : DbRoom)
    (hparts : msGet s.rooms roomId = some [(pid, oldC)])
    (hdb : msGet s.db roomId = some dbR)
    (hw : dbR.status = RoomStatus.waiting) :
    (handleJoinRoom s c now roomId pid pname role).2 =
      [(c, OutMsg.roomReady roomId role pid (s.getConn oldC).participantName
            (s.getConn oldC).role),
       (c, OutMsg.chatHistory roomId dbR.chatMessages dbR.chatMessages.length),
       (oldC, OutMsg.participantJoined pid pname role)] ∧
    (msGet (handleJoinRoom s c now roomId pid pname role).1.db roomId).map DbRoom.status =
      some RoomStatus.active ∧
    (msGet (handleJoinRoom s c now roomId pid pname role).1.db roomId).map
        DbRoom.callStartTime = some (some now) ∧
    msGet (handleJoinRoom s c now roomId pid pname role).1.rooms roomId =
      some [(pid, c)] := by
  have hnot2 : ¬ 2 ≤ ([(pid, oldC)] : List (String × Nat)).length := by simp
  have hend : ¬ dbR.status = RoomStatus.ended := by rw [hw]; decide
  by_cases hrecb : dbR.participants.any (fun p => p.participantId == pid) = true
  · refine ⟨?_, ?_, ?_, ?_⟩ <;>
      simp [handleJoinRoom, hparts, hnot2, hdb, hend, hrecb, hw, msGet_set_self, msSet]
  · refine ⟨?_, ?_, ?_, ?_⟩ <;>
      simp [handleJoinRoom, hparts, hnot2, hdb, hend, hrecb, hw, msGet_set_self, msSet,
        DbRoom.addParticipant]

/-- C9 witness: the sole occupant `A` (connection 0) rejoins on
connection 2 in a waiting room; it is greeted as the second occupant with
its own stale connection as the other participant, the stale connection
is notified, and the room becomes active at one occupant. -/
theorem joinRoom_same_id_rejoin_witness :
    (handleJoinRoom
        { conns := [(0, wsA), (2, wsA)], rooms := [("r1", [("A", 0)])],
          db := [("r1", dbR1)], connectedDevices := [], deviceStatus := [] }
        2 800 "r1" "A" "Alice" "user").2 =
      [(2, OutMsg.roomReady "r1" "user" "A"
            (ServerState.getConn
              { conns := [(0, wsA), (2, wsA)], rooms := [("r1", [("A", 0)])],
                db := [("r1", dbR1)], connectedDevices := [], deviceStatus := [] }
              0).participantName
            (ServerState.getConn
              { conns := [(0, wsA), (2, wsA)], rooms := [("r1", [("A", 0)])],
                db := [("r1", dbR1)], connectedDevices := [], deviceStatus := [] } 0).role),
       (2, OutMsg.chatHistory "r1" dbR1.chatMessages dbR1.chatMessages.length),
       (0, OutMsg.participantJoined "A" "Alice" "user")] ∧
    (msGet (handleJoinRoom
        { conns := [(0, wsA), (2, wsA)], rooms := [("r1", [("A", 0)])],
          db := [("r1", dbR1)], connectedDevices := [], deviceStatus := [] }
        2 800 "r1" "A" "Alice" "user").1.db "r1").map DbRoom.status =
      some RoomStatus.active ∧
    (msGet (handleJoinRoom
        { conns := [(0, wsA), (2, wsA)], rooms := [("r1", [("A", 0)])],
          db := [("r1", dbR1)], connectedDevices := [], deviceStatus := [] }
        2 800 "r1" "A" "Alice" "user").1.db "r1").map DbRoom.callStartTime =
      some (some 800) ∧
    msGet (handleJoinRoom
        { conns := [(0, wsA), (2, wsA)], rooms := [("r1", [("A", 0)])],
          db := [("r1", dbR1)], connectedDevices := [], deviceStatus := [] }
        2 800 "r1" "A" "Alice" "user").1.rooms "r1" = some [("A", 2)] :=
  joinRoom_same_id_rejoin _ 2 0 800 "r1" "A" "Alice" "user" dbR1
    (by decide) (by decide) (by decide)

/-- C2 counterexample: the `waiting → active` transition is not tied to
the transient registry reaching 2 occupants. In a waiting room whose sole
occupant `A` (connection 0) rejoins with the same participantId on
connection 2, the persisted status becomes `active` while the registry
holds 1 occupant throughout (it never reaches 2). -/
theorem statusActive_without_two_occupants :
    (msGet (handleJoinRoom
        { conns := [(0, wsA), (2, wsA)], rooms := [("r1", [("A", 0)])],
          db := [("r1", dbR1)], connectedDevices := [], deviceStatus := [] }
        2 800 "r1" "A" "Alice" "user").1.db "r1").map DbRoom.status =
      some RoomStatus.active ∧
    (msGet (handleJoinRoom
        { conns := [(0, wsA), (2, wsA)], rooms := [("r1", [("A", 0)])],
          db := [("r1", dbR1)], connectedDevices := [], deviceStatus := [] }
        2 800 "r1" "A" "Alice" "user").1.rooms "r1").map List.length = some 1 ∧
    dbR1.status = RoomStatus.waiting := by
  decide

theorem addParticipant_status (r : DbRoom) (pid pname role : String) (now : Nat) :
    (DbRoom.addParticipant r pid pname role now).status = r.status := by
  unfold DbRoom.addParticipant
  split <;> rfl

theorem joinRoom_db_full (s : ServerState) (c now : Nat)
    (roomId pid pname role : String) (parts : List (String × Nat))
    (hparts : msGet s.rooms roomId = some parts) (hfull : 2 ≤ parts.length) :
    (handleJoinRoom s c now roomId pid pname role).1.db = s.db := by
  simp [handleJoinRoom, hparts, hfull]

theorem joinRoom_db_first (s : ServerState) (c now : Nat)
    (roomId pid pname role : String) (dbR : DbRoom)
    (hparts : msGet s.rooms roomId = some []) (hdb : msGet s.db roomId = some dbR)
    (hend : ¬ dbR.status = RoomStatus.ended) :
    (msGet (handleJoinRoom s c now roomId pid pname role).1.db roomId).map DbRoom.status =
      some dbR.status := by
  have hnotfull : ¬ 2 ≤ ([] : List (String × Nat)).length := by simp
  by_cases hrecb : dbR.participants.any (fun p => p.participantId == pid) = true
  · simp only [handleJoinRoom, hparts, Option.isSome_some, if_true, Option.getD_some,
      hnotfull, if_false, hdb, hend, hrecb, if_true]
    rfl
  · simp only [handleJoinRoom, hparts, Option.isSome_some, if_true, Option.getD_some,
      hnotfull, if_false, hdb, hend, hrecb, Bool.false_eq_true, if_false]
    rw [msGet_set_self]
    rw [show Option.map DbRoom.status
        (some (DbRoom.addParticipant dbR pid (sOr pname "Anonymous") role now)) =
      some (DbRoom.addParticipant dbR pid (sOr pname "Anonymous") role now).status from rfl]
    rw [addParticipant_status]

theorem joinRoom_db_second (s : ServerState) (c now : Nat)
    (roomId pid pname role : String) (q : String × Nat) (qs : List (String × Nat))
    (dbR : DbRoom)
    (hparts : msGet s.rooms roomId = some (q :: qs)) (hnotfull : ¬ 2 ≤ (q :: qs).length)
    (hdb : msGet s.db roomId = some dbR) (hw : dbR.status = RoomStatus.waiting) :
    (msGet (handleJoinRoom s c now roomId pid pname role).1.db roomId).map DbRoom.status =
      some RoomStatus.active ∧
    (msGet (handleJoinRoom s c now roomId pid pname role).1.db roomId).map
      DbRoom.callStartTime = some (some now) := by
  have hend : ¬ dbR.status = RoomStatus.ended := by rw [hw]; decide
  by_cases hrecb : dbR.participants.any (fun p => p.participantId == pid) = true
  · constructor <;>
      simp only [handleJoinRoom, hparts, Option.isSome_some, if_true, Option.getD_some,
        hnotfull, if_false, hdb, hend, hrecb, if_true, hw,
        (show ¬ RoomStatus.waiting = RoomStatus.ended by decide), eq_self_iff_true,
        msGet_set_self] <;>
      rfl
  · constructor <;>
      simp only [handleJoinRoom, hparts, Option.isSome_some, if_true, Option.getD_some,
        hnotfull, if_false, hdb, hend, hrecb, Bool.false_eq_true, if_false,
        addParticipant_status, hw,
        (show ¬ RoomStatus.waiting = RoomStatus.ended by decide), eq_self_iff_true,
        msGet_set_self] <;>
      rfl

/-- C2 amended: a persisted waiting room transitions `waiting → active`
exactly when a join is seated (registry below capacity) while the
pre-join snapshot is nonempty — reaching 2 occupants when the joiner's id
is fresh, but a same-id rejoin by the sole occupant also fires it with
the registry staying at 1 — and `callStartTime` is then set; an active
room transitions `active → ended` exactly when the transient registry
returns to 0 during the leave protocol, and then `callDuration` equals
`floor((callEndTime − callStartTime)/1000)` and is non-negative whenever
the clock is monotone (`callStartTime ≤ now`). -/
theorem roomStatus_transitions (s : ServerState) (c now : Nat)
    (roomId pid pname role : String) :
    (∀ parts dbR, msGet s.rooms roomId = some parts → msGet s.db roomId = some dbR →
        dbR.status = RoomStatus.waiting →
      ((msGet (handleJoinRoom s c now roomId pid pname role).1.db roomId).map
          DbRoom.status = some RoomStatus.active ↔ parts.length < 2 ∧ parts ≠ []) ∧
      (parts.length < 2 → parts ≠ [] →
        (msGet (handleJoinRoom s c now roomId pid pname role).1.db roomId).map
          DbRoom.callStartTime = some (some now))) ∧
    (∀ ws parts dbR t, msGet s.conns c = some ws → ws.leftHandled = false →
        ws.roomId ≠ "" → ws.participantId ≠ "" →
        msGet s.rooms ws.roomId = some parts → msGet s.db ws.roomId = some dbR →
        dbR.status = RoomStatus.active → dbR.callStartTime = some t → t ≤ now →
      ((msGet (handleParticipantLeave s c now).1.db ws.roomId).map DbRoom.status =
          some RoomStatus.ended ↔ msDelete parts ws.participantId = []) ∧
      (msDelete parts ws.participantId = [] →
        (msGet (handleParticipantLeave s c now).1.db ws.roomId).map DbRoom.callEndTime =
          some (some now) ∧
        (msGet (handleParticipantLeave s c now).1.db ws.roomId).map DbRoom.callDuration =
          some (Int.fdiv ((now : Int) - (t : Int)) 1000) ∧
        ∀ d, msGet (handleParticipantLeave s c now).1.db ws.roomId = some d →
          0 ≤ d.callDuration)) := by
  constructor
  · intro parts dbR hparts hdb hw
    have hend : ¬ dbR.status = RoomStatus.ended := by rw [hw]; decide
    by_cases hfull : 2 ≤ parts.length
    · constructor
      · rw [joinRoom_db_full s c now roomId pid pname role parts hparts hfull, hdb]
        rw [show Option.map DbRoom.status (some dbR) = some dbR.status from rfl, hw]
        constructor
        · intro hcontra
          exact absurd (Option.some.inj hcontra) (by decide)
        · intro hcontra
          omega
      · intro h1 _
        omega
    · cases parts with
      | nil =>
        constructor
        · rw [joinRoom_db_first s c now roomId pid pname role dbR hparts hdb hend, hw]
          constructor
          · intro hcontra
            exact absurd (Option.some.inj hcontra) (by decide)
          · intro hcontra
            exact absurd rfl hcontra.2
        · intro _ hcontra
          exact absurd rfl hcontra
      | cons q qs =>
        have hsec := joinRoom_db_second s c now roomId pid pname role q qs dbR hparts
          hfull hdb hw
        constructor
        · rw [hsec.1]
          constructor
          · intro _
            exact ⟨by omega, by simp⟩
          · intro _
            rfl
        · intro _ _
          exact hsec.2
  · intro ws parts dbR t hws hlh hr1 hp1 hrooms hdbm hact hstart hle
    have hstep : (handleParticipantLeave s c now).1.db =
        msSet s.db ws.roomId
          (let dbRoom1 := dbR.removeParticipant ws.participantId now
           let dbRoom2 :=
             if (msDelete parts ws.participantId).length = 0 ∧
                 dbRoom1.status = RoomStatus.active then
               { ({ dbRoom1 with callEndTime := some now }).calculateDuration with
                 status := RoomStatus.ended }
             else dbRoom1
           { dbRoom2 with updatedAt := now }) := by
      simp only [handleParticipantLeave, hws, hlh, Bool.false_eq_true, if_false, hr1,
        hp1, or_self, ServerState.setConn]
      simp only [show ({ s with conns := msSet s.conns c { ws with leftHandled := true } } :
          ServerState).rooms = s.rooms from rfl,
        show ({ s with conns := msSet s.conns c { ws with leftHandled := true } } :
          ServerState).db = s.db from rfl, hrooms, hdbm]
    by_cases hdel : msDelete parts ws.participantId = []
    · have hcond : (msDelete parts ws.participantId).length = 0 ∧
          (dbR.removeParticipant ws.participantId now).status = RoomStatus.active := by
        constructor
        · rw [hdel]
          rfl
        · exact hact
      constructor
      · rw [hstep, msGet_set_self]
        simp [hcond, hdel]
      · intro _
        rw [hstep, msGet_set_self]
        refine ⟨by simp [hcond, hact, DbRoom.calculateDuration, DbRoom.removeParticipant,
                  hstart],
                by simp [hcond, hact, DbRoom.calculateDuration, DbRoom.removeParticipant,
                  hstart],
                ?_⟩
        intro d hd
        have hdv := Option.some.inj hd
        rw [← hdv]
        simp only [hcond, hact, DbRoom.calculateDuration, DbRoom.removeParticipant,
          hstart, if_true, eq_self_iff_true, and_self]
        refine Int.fdiv_nonneg ?_ (by norm_num)
        omega
    · have hcond : ¬ ((msDelete parts ws.participantId).length = 0 ∧
          (dbR.removeParticipant ws.participantId now).status = RoomStatus.active) := by
        intro hcontra
        exact hdel (List.length_eq_zero.mp hcontra.1)
      constructor
      · rw [hstep, msGet_set_self]
        simp only [hcond, if_false]
        constructor
        · intro hcontra
          have hires : dbR.status = RoomStatus.ended := by
            have := Option.some.inj hcontra
            simpa [DbRoom.removeParticipant] using this
          rw [hact] at hires
          exact absurd hires (by decide)
        · intro hcontra
          exact absurd hcontra hdel
      · intro hcontra
        exact absurd hcontra hdel

/-- C2 witness: joining waiting `rJ` (snapshot one occupant, below
capacity) activates it with `callStartTime` set; the sole occupant of
active `rL` leaving empties the registry and ends the room with
`callDuration = floor((5100−100)/1000) = 5` which is non-negative. -/
theorem roomStatus_transitions_witness :
    (((msGet (handleJoinRoom stC2 0 5100 "rJ" "C" "Cara" "user").1.db "rJ").map
        DbRoom.status = some RoomStatus.active ↔
      ([(("B" : String), (1 : Nat))].length < 2 ∧ [(("B" : String), (1 : Nat))] ≠ [])) ∧
     ([(("B" : String), (1 : Nat))].length < 2 → [(("B" : String), (1 : Nat))] ≠ [] →
       (msGet (handleJoinRoom stC2 0 5100 "rJ" "C" "Cara" "user").1.db "rJ").map
         DbRoom.callStartTime = some (some 5100))) ∧
    (((msGet (handleParticipantLeave stC2 0 5100).1.db wsL.roomId).map DbRoom.status =
        some RoomStatus.ended ↔ msDelete [("A", 0)] wsL.participantId = []) ∧
     (msDelete [("A", 0)] wsL.participantId = [] →
       (msGet (handleParticipantLeave stC2 0 5100).1.db wsL.roomId).map
         DbRoom.callEndTime = some (some 5100) ∧
       (msGet (handleParticipantLeave stC2 0 5100).1.db wsL.roomId).map
         DbRoom.callDuration = some (Int.fdiv ((5100 : Int) - (100 : Int)) 1000) ∧
       ∀ d, msGet (handleParticipantLeave stC2 0 5100).1.db wsL.roomId = some d →
         0 ≤ d.callDuration)) :=
  ⟨(roomStatus_transitions stC2 0 5100 "rJ" "C" "Cara" "user").1 [("B", 1)] dbWaitJ
     (by decide) (by decide) (by decide),
   (roomStatus_transitions stC2 0 5100 "rJ" "C" "Cara" "user").2 wsL [("A", 0)] dbActL 100
     (by decide) (by decide) (by decide) (by decide) (by decide) (by decide) (by decide)
     (by decide) (by decide)⟩

/-- C8: a `join-room` that finds the persisted room with status `ended`
(and an empty transient room) starts a fresh session: the persisted
participant list is cleared down to exactly the joiner, the call
timestamps and duration are cleared, status returns to `waiting`, the
participant/reconnection counters restart (1 and 0), and the fresh
`sessionId` is `mkSessionId roomId now` — distinct from every sessionId
generated for that room at any other millisecond, hence from all prior
sessions. -/
theorem joinRoom_ended_reset (s : ServerState) (c now : Nat)
    (roomId pid pname role : String) (dbR : DbRoom)
    (hfresh : (msGet s.rooms roomId).getD [] = [])
    (hdb : msGet s.db roomId = some dbR)
    (hend : dbR.status = RoomStatus.ended) :
    ∀ d, msGet (handleJoinRoom s c now roomId pid pname role).1.db roomId = some d →
      d.participants = [{ participantId := pid, participantName := sOr pname "Anonymous",
                          role := role, joinedAt := now, leftAt := none }] ∧
      d.callStartTime = none ∧ d.callEndTime = none ∧ d.callDuration = 0 ∧
      d.status = RoomStatus.waiting ∧
      d.metadata.totalParticipants = 1 ∧ d.metadata.reconnections = 0 ∧
      d.sessionId = some (mkSessionId roomId now) ∧
      (∀ t', t' ≠ now → d.sessionId ≠ some (mkSessionId roomId t')) := by
  intro d hd
  have hchar : msGet (handleJoinRoom s c now roomId pid pname role).1.db roomId =
      some (DbRoom.addParticipant
        { dbR with
            participants := [], callStartTime := none, callEndTime := none,
            callDuration := 0, sessionStartTime := some now,
            sessionId := some (mkSessionId roomId now), status := RoomStatus.waiting,
            metadata := { dbR.metadata with totalParticipants := 0, reconnections := 0 } }
        pid (sOr pname "Anonymous") role now) := by
    cases hrm : msGet s.rooms roomId with
    | none =>
      simp only [handleJoinRoom, hrm, Option.isSome_none, Bool.false_eq_true, if_false,
        msGet_set_self, Option.getD_some,
        (show ¬ 2 ≤ ([] : List (String × Nat)).length by simp), hdb, hend,
        eq_self_iff_true, if_true, List.any_nil, msGet_set_self]
    | some parts0 =>
      have hp0 : parts0 = [] := by simpa [hrm] using hfresh
      subst hp0
      simp only [handleJoinRoom, hrm, Option.isSome_some, if_true, Option.getD_some,
        (show ¬ 2 ≤ ([] : List (String × Nat)).length by simp), if_false, hdb, hend,
        eq_self_iff_true, Bool.false_eq_true, List.any_nil, msGet_set_self]
  rw [hchar] at hd
  have hdv := Option.some.inj hd
  rw [← hdv]
  unfold DbRoom.addParticipant
  simp only [List.any_nil, Bool.false_eq_true, if_false, List.nil_append,
    List.length_singleton, List.length_cons, List.length_nil, eq_self_iff_true, true_and]
  intro t' hne hcontra
  have h2 := Option.some.inj hcontra
  exact hne (mkSessionId_inj_time h2).symm

/-- C8 witness: joining the ended room `rE` at time 900 resets it to a
fresh waiting session containing only the joiner, with sessionId
`mkSessionId "rE" 900`, distinct from the id of any other time. -/
theorem joinRoom_ended_reset_witness :
    ({ roomId := "rE", sessionId := some (mkSessionId "rE" 900),
       creator := { participantId := "A", participantName := "Alice", role := "user" },
       participants := [{ participantId := "A", participantName := "Alice",
                          role := "user", joinedAt := 900, leftAt := none }],
       chatMessages := [], status := RoomStatus.waiting, callStartTime := none,
       callEndTime := none, callDuration := 0, sessionStartTime := some 900,
       metadata := { totalParticipants := 1, maxParticipants := 2, reconnections := 0 },
       updatedAt := 1 } : DbRoom).participants =
      [{ participantId := "A", participantName := sOr "Alice" "Anonymous",
         role := "user", joinedAt := 900, leftAt := none }] ∧
    ({ roomId := "rE", sessionId := some (mkSessionId "rE" 900),
       creator := { participantId := "A", participantName := "Alice", role := "user" },
       participants := [{ participantId := "A", participantName := "Alice",
                          role := "user", joinedAt := 900, leftAt := none }],
       chatMessages := [], status := RoomStatus.waiting, callStartTime := none,
       callEndTime := none, callDuration := 0, sessionStartTime := some 900,
       metadata := { totalParticipants := 1, maxParticipants := 2, reconnections := 0 },
       updatedAt := 1 } : DbRoom).callStartTime = none ∧
    ({ roomId := "rE", sessionId := some (mkSessionId "rE" 900),
       creator := { participantId := "A", participantName := "Alice", role := "user" },
       participants := [{ participantId := "A", participantName := "Alice",
                          role := "user", joinedAt := 900, leftAt := none }],
       chatMessages := [], status := RoomStatus.waiting, callStartTime := none,
       callEndTime := none, callDuration := 0, sessionStartTime := some 900,
       metadata := { totalParticipants := 1, maxParticipants := 2, reconnections := 0 },
       updatedAt := 1 } : DbRoom).callEndTime = none ∧
    ({ roomId := "rE", sessionId := some (mkSessionId "rE" 900),
       creator := { participantId := "A", participantName := "Alice", role := "user" },
       participants := [{ participantId := "A", participantName := "Alice",
                          role := "user", joinedAt := 900, leftAt := none }],
       chatMessages := [], status := RoomStatus.waiting, callStartTime := none,
       callEndTime := none, callDuration := 0, sessionStartTime := some 900,
       metadata := { totalParticipants := 1, maxParticipants := 2, reconnections := 0 },
       updatedAt := 1 } : DbRoom).callDuration = 0 ∧
    ({ roomId := "rE", sessionId := some (mkSessionId "rE" 900),
       creator := { participantId := "A", participantName := "Alice", role := "user" },
       participants := [{ participantId := "A", participantName := "Alice",
                          role := "user", joinedAt := 900, leftAt := none }],
       chatMessages := [], status := RoomStatus.waiting, callStartTime := none,
       callEndTime := none, callDuration := 0, sessionStartTime := some 900,
       metadata := { totalParticipants := 1, maxParticipants := 2, reconnections := 0 },
       updatedAt := 1 } : DbRoom).status = RoomStatus.waiting ∧
    ({ roomId := "rE", sessionId := some (mkSessionId "rE" 900),
       creator := { participantId := "A", participantName := "Alice", role := "user" },
       participants := [{ participantId := "A", participantName := "Alice",
                          role := "user", joinedAt := 900, leftAt := none }],
       chatMessages := [], status := RoomStatus.waiting, callStartTime := none,
       callEndTime := none, callDuration := 0, sessionStartTime := some 900,
       metadata := { totalParticipants := 1, maxParticipants := 2, reconnections := 0 },
       updatedAt := 1 } : DbRoom).metadata.totalParticipants = 1 ∧
    ({ roomId := "rE", sessionId := some (mkSessionId "rE" 900),
       creator := { participantId := "A", participantName := "Alice", role := "user" },
       participants := [{ participantId := "A", participantName := "Alice",
                          role := "user", joinedAt := 900, leftAt := none }],
       chatMessages := [], status := RoomStatus.waiting, callStartTime := none,
       callEndTime := none, callDuration := 0, sessionStartTime := some 900,
       metadata := { totalParticipants := 1, maxParticipants := 2, reconnections := 0 },
       updatedAt := 1 } : DbRoom).metadata.reconnections = 0 ∧
    ({ roomId := "rE", sessionId := some (mkSessionId "rE" 900),
       creator := { participantId := "A", participantName := "Alice", role := "user" },
       participants := [{ participantId := "A", participantName := "Alice",
                          role := "user", joinedAt := 900, leftAt := none }],
       chatMessages := [], status := RoomStatus.waiting, callStartTime := none,
       callEndTime := none, callDuration := 0, sessionStartTime := some 900,
       metadata := { totalParticipants := 1, maxParticipants := 2, reconnections := 0 },
       updatedAt := 1 } : DbRoom).sessionId = some (mkSessionId "rE" 900) ∧
    (∀ t', t' ≠ 900 →
      ({ roomId := "rE", sessionId := some (mkSessionId "rE" 900),
         creator := { participantId := "A", participantName := "Alice", role := "user" },
         participants := [{ participantId := "A", participantName := "Alice",
                            role := "user", joinedAt := 900, leftAt := none }],
         chatMessages := [], status := RoomStatus.waiting, callStartTime := none,
         callEndTime := none, callDuration := 0, sessionStartTime := some 900,
         metadata := { totalParticipants := 1, maxParticipants := 2, reconnections := 0 },
         updatedAt := 1 } : DbRoom).sessionId ≠ some (mkSessionId "rE" t')) :=
  joinRoom_ended_reset
    { conns := [(0, wsA)], rooms := [], db := [("rE", dbEnded)],
      connectedDevices := [], deviceStatus := [] } 0 900 "rE" "A" "Alice" "user" dbEnded
    (by decide) (by decide) (by decide) _ (by decide)

end VideoCall
